import Mathlib

/-!
# Verification of the LLM-EvalSys dispatch-and-judge pipeline

A shallow embedding, in Lean 4, of the core of the `LLM-EvalSys` repository:

* `src/evaluation/evaluator.py`   — judge invocation retry/fallback loop and
  the scoring parser (`call_bedrock_model`, `extract_score`);
* `src/evaluation/json_validator.py` — the judging stage (`process_json_data`);
* `src/generation/response_generator.py` — generation dispatch result
  collection (`process_input_json`, `invoke_retrieval_lambda` classification);
* `src/evaluation/metrics.py`     — the metrics aggregator (`calculate_metrics`).

Python strings are modelled as `List Char` (named `Str` below), and the Python
string primitives used by the source (`split`, `strip`, `startswith`, `in`,
`replace`, `int(...)`) are given executable Lean counterparts with the same
semantics on the inputs the source feeds them.  External services (the answer
generation endpoint, the Bedrock judge endpoint) are modelled as explicit
oracle functions passed to the embedded code, and exceptions raised by those
services are modelled as `Except`/error values.  Numeric aggregation is done
in `ℚ` (Python floats behave exactly like the rationals on every quantity the
theorems below mention; no tie case of Python's banker's rounding is reachable
for the third-of-integer combined scores, and `pyRound` implements banker's
rounding faithfully anyway).
-/

set_option maxRecDepth 4000

/-- Python strings, modelled as lists of characters. -/
abbrev Str := List Char

/-- Python's notion of whitespace for `str.strip()` (ASCII subset actually
produced by the pipeline): space, tab, newline, carriage return, vertical
tab, form feed. -/
def pyIsSpace (c : Char) : Bool :=
  c = ' ' || c = '\t' || c = '\n' || c = '\r' || c = '\x0b' || c = '\x0c'

/-- Python `str.lstrip()`. -/
def pyLstrip (s : Str) : Str := s.dropWhile pyIsSpace

/-- Python `str.strip()`: drop whitespace from both ends. -/
def pyStrip (s : Str) : Str :=
  ((s.dropWhile pyIsSpace).reverse.dropWhile pyIsSpace).reverse

/-- Python `str.split(sep)` with a single-character separator `c`
(e.g. `result.split("\n")`, `score_line.split(":")`).  `"".split(c) = [""]`. -/
def splitOnChar (c : Char) : Str → List Str
  | [] => [[]]
  | x :: xs =>
    if x = c then [] :: splitOnChar c xs
    else
      match splitOnChar c xs with
      | [] => [[x]]
      | h :: t => (x :: h) :: t

/-- Python `str.startswith(p)`. -/
def pyStartswith (p s : Str) : Bool := p.isPrefixOf s

/-- Python's substring test `p in s`. -/
def containsSub (p : Str) : Str → Bool
  | [] => p.isEmpty
  | x :: xs => p.isPrefixOf (x :: xs) || containsSub p xs

/-- Fuel-driven worker for `pyReplace`.  Every call site keeps
`s.length ≤ fuel`, and each recursive step consumes at least one character,
so the fuel never runs out (`pyReplaceFuel_congr` below makes this precise). -/
def pyReplaceFuel (p r : Str) : Nat → Str → Str
  | 0, s => s
  | _ + 1, [] => []
  | fuel + 1, x :: xs =>
    if p.isPrefixOf (x :: xs) ∧ p ≠ [] then
      r ++ pyReplaceFuel p r fuel ((x :: xs).drop p.length)
    else
      x :: pyReplaceFuel p r fuel xs

/-- Python `str.replace(p, r)` for a non-empty pattern `p`: replace every
non-overlapping occurrence of `p`, scanning left to right.  (For `p = []`
this is the identity; the source only ever replaces the non-empty literal
`"Justification:"`.) -/
def pyReplace (p r s : Str) : Str := pyReplaceFuel p r s.length s

theorem pyReplaceFuel_congr {p r : Str} :
    ∀ (f₁ : Nat) (s : Str) (f₂ : Nat), s.length ≤ f₁ → s.length ≤ f₂ →
      pyReplaceFuel p r f₁ s = pyReplaceFuel p r f₂ s := by
  intro f₁
  induction f₁ with
  | zero =>
    intro s f₂ h1 _
    have hs : s = [] := List.length_eq_zero.mp (Nat.le_zero.mp h1)
    subst hs
    cases f₂ <;> rfl
  | succ f ih =>
    intro s f₂ h1 h2
    cases s with
    | nil => cases f₂ <;> rfl
    | cons x xs =>
      cases f₂ with
      | zero => simp at h2
      | succ g =>
        rw [pyReplaceFuel, pyReplaceFuel]
        by_cases hc : p.isPrefixOf (x :: xs) = true ∧ p ≠ []
        · rw [if_pos hc, if_pos hc]
          have hp : 1 ≤ p.length := by
            rcases p with _ | ⟨a, q⟩
            · exact absurd rfl hc.2
            · simp
          have hlen : ((x :: xs).drop p.length).length ≤ f ∧
              ((x :: xs).drop p.length).length ≤ g := by
            simp only [List.length_drop, List.length_cons]
            simp only [List.length_cons] at h1 h2
            omega
          rw [ih _ g hlen.1 hlen.2]
        · rw [if_neg hc, if_neg hc]
          simp only [List.length_cons] at h1 h2
          rw [ih xs g (by omega) (by omega)]

theorem pyReplace_nil (p r : Str) : pyReplace p r [] = [] := rfl

theorem pyReplace_cons_pos {p r : Str} {x : Char} {xs : Str}
    (h : p.isPrefixOf (x :: xs) = true ∧ p ≠ []) :
    pyReplace p r (x :: xs) = r ++ pyReplace p r ((x :: xs).drop p.length) := by
  unfold pyReplace
  rw [show (x :: xs).length = xs.length + 1 from rfl, pyReplaceFuel, if_pos h]
  congr 1
  apply pyReplaceFuel_congr
  · have hp : 1 ≤ p.length := by
      rcases p with _ | ⟨a, q⟩
      · exact absurd rfl h.2
      · simp
    simp only [List.length_drop, List.length_cons]
    omega
  · exact Nat.le_refl _

theorem pyReplace_cons_neg {p r : Str} {x : Char} {xs : Str}
    (h : ¬(p.isPrefixOf (x :: xs) = true ∧ p ≠ [])) :
    pyReplace p r (x :: xs) = x :: pyReplace p r xs := by
  unfold pyReplace
  rw [show (x :: xs).length = xs.length + 1 from rfl, pyReplaceFuel, if_neg h]

/-- Digit characters. -/
def digitChars : List Char := ['0', '1', '2', '3', '4', '5', '6', '7', '8', '9']

/-- Value of an ASCII digit character. -/
def digitVal (c : Char) : Nat := c.toNat - '0'.toNat

/-- Read a non-empty all-digit string as a natural number (the digits part of
Python's `int(...)`). -/
def digitsToNat (s : Str) : Option Nat :=
  if s ≠ [] ∧ s.all (fun c => c ∈ digitChars) then
    some (s.foldl (fun a c => a * 10 + digitVal c) 0)
  else none

/-- Python `int(str)` on an already-stripped string: an optional sign followed
by at least one digit.  (Python additionally accepts underscores between
digits and non-ASCII digits; the judge-response format never produces those,
and no theorem below depends on them.)  `none` models a raised `ValueError`. -/
def parseIntOpt (s : Str) : Option Int :=
  match s with
  | [] => none
  | c :: rest =>
    if c = '+' then (digitsToNat rest).map Int.ofNat
    else if c = '-' then (digitsToNat rest).map (fun n => -(n : Int))
    else (digitsToNat s).map Int.ofNat

/-- Fuel-driven worker for `natChars`; `n < fuel` holds at every call site. -/
def natCharsF : Nat → Nat → Str
  | 0, _ => []
  | fuel + 1, n =>
    if n < 10 then [digitChars.getD n '0']
    else natCharsF fuel (n / 10) ++ [digitChars.getD (n % 10) '0']

/-- Decimal rendering of a natural number, least position last (the shape of
the integers appearing in well-formed judge responses). -/
def natChars (n : Nat) : Str := natCharsF (n + 1) n

theorem natCharsF_mem_digit :
    ∀ (fuel n : Nat), n < fuel → ∀ c ∈ natCharsF fuel n, c ∈ digitChars := by
  intro fuel
  induction fuel with
  | zero => intro n h; omega
  | succ f ih =>
    intro n h c hc
    rw [natCharsF] at hc
    split at hc
    · rename_i h10
      simp only [List.mem_singleton] at hc
      subst hc
      interval_cases n <;> decide
    · rename_i h10
      rcases List.mem_append.mp hc with h1 | h1
      · have hd : n / 10 < f := by
          have hlt : n / 10 < n := Nat.div_lt_self (by omega) (by norm_num)
          omega
        exact ih (n / 10) hd c h1
      · simp only [List.mem_singleton] at h1
        subst h1
        have hm : n % 10 < 10 := Nat.mod_lt _ (by norm_num)
        interval_cases hm' : n % 10 <;> decide

theorem natChars_mem_digit (n : Nat) : ∀ c ∈ natChars n, c ∈ digitChars :=
  natCharsF_mem_digit (n + 1) n (Nat.lt_succ_self n)

theorem natCharsF_ne_nil (fuel n : Nat) (h : n < fuel) : natCharsF fuel n ≠ [] := by
  cases fuel with
  | zero => omega
  | succ f =>
    rw [natCharsF]
    split
    · simp
    · simp

theorem natChars_ne_nil (n : Nat) : natChars n ≠ [] :=
  natCharsF_ne_nil (n + 1) n (Nat.lt_succ_self n)

theorem digit_not_space {c : Char} (h : c ∈ digitChars) : pyIsSpace c = false := by
  fin_cases h <;> decide

theorem digit_ne_colon {c : Char} (h : c ∈ digitChars) : c ≠ ':' := by
  fin_cases h <;> decide

theorem digit_ne_newline {c : Char} (h : c ∈ digitChars) : c ≠ '\n' := by
  fin_cases h <;> decide

theorem digit_ne_sign {c : Char} (h : c ∈ digitChars) : c ≠ '+' ∧ c ≠ '-' := by
  fin_cases h <;> decide

theorem digitVal_getD (d : Nat) (h : d < 10) : digitVal (digitChars.getD d '0') = d := by
  interval_cases d <;> decide

theorem natCharsF_foldl :
    ∀ (fuel n : Nat), n < fuel → ∀ a : Nat,
      (natCharsF fuel n).foldl (fun a c => a * 10 + digitVal c) a =
        a * 10 ^ (natCharsF fuel n).length + n := by
  intro fuel
  induction fuel with
  | zero => intro n h; omega
  | succ f ih =>
    intro n h a
    rw [natCharsF]
    split
    · rename_i h10
      simp only [List.foldl_cons, List.foldl_nil, List.length_singleton, pow_one]
      rw [digitVal_getD n h10]
    · rename_i h10
      have hd : n / 10 < f := by
        have hlt : n / 10 < n := Nat.div_lt_self (by omega) (by norm_num)
        omega
      rw [List.foldl_append, List.length_append]
      rw [ih (n / 10) hd a]
      simp only [List.foldl, List.length_singleton]
      rw [digitVal_getD (n % 10) (Nat.mod_lt _ (by norm_num))]
      rw [pow_succ]
      have := Nat.div_add_mod n 10
      ring_nf
      omega

theorem natChars_foldl (n : Nat) (a : Nat) :
    (natChars n).foldl (fun a c => a * 10 + digitVal c) a =
      a * 10 ^ (natChars n).length + n :=
  natCharsF_foldl (n + 1) n (Nat.lt_succ_self n) a

theorem digitsToNat_natChars (n : Nat) : digitsToNat (natChars n) = some n := by
  rw [digitsToNat, if_pos]
  · congr 1
    have := natChars_foldl n 0
    simpa using this
  · refine ⟨natChars_ne_nil n, ?_⟩
    rw [List.all_eq_true]
    intro c hc
    simpa using natChars_mem_digit n c hc

theorem parseIntOpt_natChars (n : Nat) : parseIntOpt (natChars n) = some (n : Int) := by
  have hne := natChars_ne_nil n
  rcases hh : natChars n with _ | ⟨c, rest⟩
  · exact absurd hh hne
  · have hc : c ∈ digitChars := natChars_mem_digit n c (by rw [hh]; exact List.mem_cons_self _ _)
    have hsign := digit_ne_sign hc
    rw [parseIntOpt]
    rw [if_neg (by simpa using hsign.1), if_neg (by simpa using hsign.2)]
    rw [← hh, digitsToNat_natChars]
    rfl

theorem splitOnChar_not_mem {c : Char} {s : Str} (h : c ∉ s) : splitOnChar c s = [s] := by
  induction s with
  | nil => rfl
  | cons x xs ih =>
    rw [splitOnChar]
    have hx : ¬ x = c := fun he => h (he ▸ List.mem_cons_self x xs)
    rw [if_neg hx]
    rw [ih (fun hm => h (List.mem_cons_of_mem _ hm))]

theorem splitOnChar_append {c : Char} {a b : Str} (h : c ∉ a) :
    splitOnChar c (a ++ c :: b) = a :: splitOnChar c b := by
  induction a with
  | nil =>
    simp only [List.nil_append]
    rw [splitOnChar, if_pos rfl]
  | cons x xs ih =>
    have hx : ¬ x = c := fun he => h (he ▸ List.mem_cons_self x xs)
    simp only [List.cons_append]
    rw [splitOnChar, if_neg hx, ih (fun hm => h (List.mem_cons_of_mem _ hm))]

theorem dropWhile_space_eq_self {s : Str} (h : ∀ c ∈ s, pyIsSpace c = false) :
    s.dropWhile pyIsSpace = s := by
  cases s with
  | nil => rfl
  | cons x xs =>
    rw [List.dropWhile_cons_of_neg]
    simp [h x (List.mem_cons_self x xs)]

theorem pyStrip_no_space {s : Str} (h : ∀ c ∈ s, pyIsSpace c = false) : pyStrip s = s := by
  rw [pyStrip, dropWhile_space_eq_self h, dropWhile_space_eq_self, List.reverse_reverse]
  intro c hc
  exact h c (List.mem_reverse.mp hc)

theorem pyStrip_cons_space (s : Str) : pyStrip (' ' :: s) = pyStrip s := by
  unfold pyStrip
  rw [List.dropWhile_cons_of_pos (by decide)]

theorem containsSub_eq_false {hd : Char} {tl s : Str}
    (h : hd ∉ s) : containsSub (hd :: tl) s = false := by
  induction s with
  | nil => rfl
  | cons x xs ih =>
    rw [containsSub]
    have hx : hd ≠ x := fun he => h (he ▸ List.mem_cons_self x xs)
    have hbeq : (hd == x) = false := beq_eq_false_iff_ne.mpr hx
    have hpre : (hd :: tl).isPrefixOf (x :: xs) = false := by
      simp [List.isPrefixOf, hbeq]
    rw [hpre, ih (fun hm => h (List.mem_cons_of_mem _ hm))]
    rfl

theorem pyReplace_no_occur {p : Str} {r s : Str} (h : containsSub p s = false) :
    pyReplace p r s = s := by
  induction s with
  | nil => rfl
  | cons x xs ih =>
    rw [containsSub, Bool.or_eq_false_iff] at h
    have hcond : ¬(p.isPrefixOf (x :: xs) = true ∧ p ≠ []) := by
      intro hc
      rw [h.1] at hc
      exact Bool.false_ne_true hc.1
    rw [pyReplace_cons_neg hcond, ih h.2]

theorem pyReplace_skip {hd : Char} {tl r a b : Str} (h : hd ∉ a) :
    pyReplace (hd :: tl) r (a ++ b) = a ++ pyReplace (hd :: tl) r b := by
  induction a with
  | nil => simp
  | cons x xs ih =>
    have hx : hd ≠ x := fun he => h (he ▸ List.mem_cons_self x xs)
    have hbeq : (hd == x) = false := beq_eq_false_iff_ne.mpr hx
    have hcond : ¬((hd :: tl).isPrefixOf (x :: (xs ++ b)) = true ∧ hd :: tl ≠ []) := by
      intro hc
      have := hc.1
      simp [List.isPrefixOf, hbeq] at this
    rw [List.cons_append, pyReplace_cons_neg hcond,
      ih (fun hm => h (List.mem_cons_of_mem _ hm)), List.cons_append]

theorem pyReplace_head {p r b : Str} (hp : p ≠ []) :
    pyReplace p r (p ++ b) = r ++ pyReplace p r b := by
  rcases p with _ | ⟨c, q⟩
  · exact absurd rfl hp
  · have hpre : (c :: q).isPrefixOf (c :: (q ++ b)) = true := by
      apply List.isPrefixOf_iff_prefix.mpr
      exact ⟨b, rfl⟩
    rw [List.cons_append, pyReplace_cons_pos ⟨hpre, hp⟩]
    congr 1
    have hdrop : List.drop (c :: q).length (c :: (q ++ b)) = b := by
      simp only [List.length_cons, List.drop_succ_cons]
      exact List.drop_left q b
    rw [hdrop]

theorem intercalate_singleton (sep : Str) (a : Str) : List.intercalate sep [a] = a := by
  simp [List.intercalate]

/-! ## The Judge Invoker and Scoring Parser (`src/evaluation/evaluator.py`) -/

/-- `BEDROCK_DEFAULT_MODEL` from `src/utils/config.py`. -/
def BEDROCK_DEFAULT_MODEL : Str := "anthropic.claude-3-sonnet-20240229-v1:0".data

/-- `BEDROCK_FALLBACK_MODEL` from `src/utils/config.py`. -/
def BEDROCK_FALLBACK_MODEL : Str := "anthropic.claude-instant-v1".data

/-- The evaluation-score dictionary returned by `call_bedrock_model`
(`accuracy`, `completeness`, `relevance`, `justification`). -/
structure EvaluationScore where
  accuracy : Int
  completeness : Int
  relevance : Int
  justification : Str
deriving DecidableEq

/-- `extract_score` (evaluator.py lines 116–121): find the first line starting
with `prefix`; take the text between the first and second `:`; strip it and
convert with `int(...)`.  A missing line, a missing `[1]` field (IndexError)
or a failed conversion (ValueError) all yield 0. -/
def extract_score (lines : List Str) (pfx : Str) : Int :=
  let score_line := (lines.find? (fun l => pyStartswith pfx l)).getD []
  if score_line = [] then 0
  else
    match (splitOnChar ':' score_line).get? 1 with
    | none => 0
    | some f => (parseIntOpt (pyStrip f)).getD 0

/-- The scoring parser (evaluator.py lines 113–128): split the judge response
into lines, extract the three axis scores, and join all lines beginning with
`"Justification"` with single spaces, deleting every occurrence of the literal
`"Justification:"` and stripping the result. -/
def parse_evaluation (result : Str) : EvaluationScore :=
  let lines := splitOnChar '\n' result
  let accuracy := extract_score lines "Accuracy score".data
  let completeness := extract_score lines "Completeness score".data
  let relevance := extract_score lines "Relevance score".data
  let justification_lines := lines.filter (fun l => pyStartswith "Justification".data l)
  let justification :=
    if justification_lines = [] then []
    else pyStrip (pyReplace "Justification:".data [] (List.intercalate [' '] justification_lines))
  ⟨accuracy, completeness, relevance, justification⟩

/-- Outcome of one `bedrock.invoke_model` attempt, as seen by the retry loop:
either the decoded response text, or a raised exception with its message. -/
inductive AttemptResult where
  | ok (text : Str)
  | err (msg : Str)
deriving DecidableEq

/-- Terminal state of the retry loop of `call_bedrock_model`
(evaluator.py lines 63–102): a successful response text, an exception
re-raised after exhausting retries, or loop exit with `result is None`. -/
inductive LoopOutcome where
  | success (text : Str)
  | raised (msg : Str)
  | noResult
deriving DecidableEq

/-- The retry/fallback loop of `call_bedrock_model` (evaluator.py lines
63–102), with gas `max_retries - retries`.  `attempt i model` is the oracle
for the `i`-th (0-based) `bedrock.invoke_model` call using model id `model`.
Returns the model id used by each attempt in order, the number of 2-second
backoff sleeps performed, and the terminal outcome.  An error containing both
`"ValidationException"` and `"inference profile"` switches to the fallback
model id with no sleep; any other error sleeps 2 seconds and retries while
retries remain, else re-raises. -/
def callLoop (attempt : Nat → Str → AttemptResult) (fallbackId : Str) :
    Nat → Nat → Str → List Str × Nat × LoopOutcome
  | 0, _, _ => ([], 0, .noResult)
  | gas + 1, idx, model =>
    match attempt idx model with
    | .ok t => ([model], 0, .success t)
    | .err m =>
      if containsSub "ValidationException".data m && containsSub "inference profile".data m then
        let k := callLoop attempt fallbackId gas (idx + 1) fallbackId
        (model :: k.1, k.2.1, k.2.2)
      else if gas ≠ 0 then
        let k := callLoop attempt fallbackId gas (idx + 1) model
        (model :: k.1, k.2.1 + 1, k.2.2)
      else ([model], 0, .raised m)

/-- The observable result of one `call_bedrock_model` call: the returned
score dictionary together with the invocation trace (model ids attempted,
backoff sleeps). -/
structure JudgeCallTrace where
  score : EvaluationScore
  models : List Str
  sleeps : Nat
deriving DecidableEq

/-- `call_bedrock_model` (evaluator.py lines 30–156), with the Bedrock
endpoint abstracted as `attempt`.  After the loop: `if not result` (loop
exhausted, or an empty success text) returns the zero score with
justification `"Failed to get response from model"`; a re-raised exception is
caught by the outer handler and returns `"Failed to evaluate: "` plus the
exception text; otherwise the response text is parsed. -/
def call_bedrock_model (attempt : Nat → Str → AttemptResult)
    (max_retries : Nat := 3) : JudgeCallTrace :=
  let loop := callLoop attempt BEDROCK_FALLBACK_MODEL max_retries 0 BEDROCK_DEFAULT_MODEL
  match loop.2.2 with
  | .success t =>
    if t = [] then ⟨⟨0, 0, 0, "Failed to get response from model".data⟩, loop.1, loop.2.1⟩
    else ⟨parse_evaluation t, loop.1, loop.2.1⟩
  | .raised m => ⟨⟨0, 0, 0, "Failed to evaluate: ".data ++ m⟩, loop.1, loop.2.1⟩
  | .noResult => ⟨⟨0, 0, 0, "Failed to get response from model".data⟩, loop.1, loop.2.1⟩

/-! ## The judging stage (`src/evaluation/json_validator.py`) -/

/-- The fixed timeout sentinel produced by `invoke_retrieval_lambda`
(response_generator.py line 48). -/
def timeoutSentinel : Str :=
  "The model took too long to respond (timeout after 30 seconds). re-run the script.".data

/-- The substring `process_json_data` tests for (json_validator.py line 43). -/
def timeoutMarker : Str := "The model took too long to respond".data

/-- Justification recorded for a timeout-skipped entry (json_validator.py line 53). -/
def skipJustification : Str := "Skipped due to timeout error in the response".data

/-- The `"Generated Answer"` field of an input entry: a
`{raw_response, text_response}` object, a bare string, or missing
(Python default `{}`). -/
inductive GenAnswerField where
  | dict (raw_response text_response : Str)
  | plain (s : Str)
  | absent
deriving DecidableEq

/-- `text_response` extraction (json_validator.py lines 37–41): the
`text_response` key of a dict-shaped answer, else the stringified value,
stripped either way (missing key / missing field gives `""`). -/
def textResponseOf : GenAnswerField → Str
  | .dict _ t => pyStrip t
  | .plain s => pyStrip s
  | .absent => []

/-- One element of the judging stage's input JSON. -/
structure InputEntry where
  question : Str
  expectedAnswer : Str
  generatedAnswer : GenAnswerField
deriving DecidableEq

/-- One element of the judging stage's output JSON (an EvaluationRecord). -/
structure ResultEntry where
  question : Str
  expected_answer : Str
  generated_answer : Str
  text_response_evaluation : EvaluationScore
deriving DecidableEq

/-- One iteration of the `process_json_data` loop (json_validator.py lines
26–81): `none` when the entry is dropped for a missing question or expected
answer; otherwise the judging prompts `(question, generated, reference)`
dispatched for it (empty on a timeout skip) together with the result entry
appended to `results`.  `judge q g r` abstracts
`call_bedrock_model(build_judging_prompt(q, g, r))`. -/
def stepEntry (judge : Str → Str → Str → EvaluationScore) (e : InputEntry) :
    Option (List (Str × Str × Str) × ResultEntry) :=
  let question := pyStrip e.question
  let expected_answer := pyStrip e.expectedAnswer
  if question = [] ∨ expected_answer = [] then none
  else
    let text_response := textResponseOf e.generatedAnswer
    if containsSub timeoutMarker text_response then
      some ([], ⟨question, expected_answer, text_response, ⟨0, 0, 0, skipJustification⟩⟩)
    else
      some ([(question, text_response, expected_answer)],
        ⟨question, expected_answer, text_response,
          judge question text_response expected_answer⟩)

/-- The result list built by `process_json_data` over its input entries. -/
def process_json_data (judge : Str → Str → Str → EvaluationScore)
    (entries : List InputEntry) : List ResultEntry :=
  entries.filterMap (fun e => (stepEntry judge e).map Prod.snd)

/-- The judge-endpoint calls dispatched by `process_json_data`, in order. -/
def judge_calls (judge : Str → Str → Str → EvaluationScore)
    (entries : List InputEntry) : List (Str × Str × Str) :=
  (entries.map (fun e => ((stepEntry judge e).map Prod.fst).getD [])).join

/-! ## Generation dispatch (`src/generation/response_generator.py`) -/

/-- The `'Generated Answer'` object written back by `process_input_json`. -/
structure GeneratedAnswer where
  raw_response : Str
  text_response : Str
deriving DecidableEq

/-- One element of the generation stage's input JSON: `question = none`
models a record with no `'Question'` field (such items are skipped and left
untouched). -/
structure GenInputItem where
  question : Option Str
  generatedAnswer : Option GeneratedAnswer
deriving DecidableEq

/-- Result collection for one completed future (response_generator.py lines
116–133): `future.result()` either returned a `(raw, extracted)` pair, or
raised an exception with message `m`, in which case the item's answer becomes
`{'raw_response': "Error: " + m, 'text_response': ""}` and the batch
continues. -/
def collectGenerated : Except Str (Str × Str) → GeneratedAnswer
  | .ok (raw, extracted) => ⟨raw, extracted⟩
  | .error m => ⟨"Error: ".data ++ m, []⟩

/-- `process_input_json` result assembly (response_generator.py lines
101–133): each item holding a question is dispatched, and its completed
outcome (value or exception, modelled by the oracle `invoke` taking the item
index and question) is written back into that item's slot by index; items
without a `'Question'` field are left unchanged. -/
def process_input_json (invoke : Nat → Str → Except Str (Str × Str))
    (items : List GenInputItem) : List GenInputItem :=
  items.enum.map (fun p =>
    match p.2.question with
    | none => p.2
    | some q => { p.2 with generatedAnswer := some (collectGenerated (invoke p.1 q)) })

/-! ## The Metrics Aggregator (`src/evaluation/metrics.py`)

Score statistics are computed over `ℚ`; on every quantity a theorem below
mentions, Python float arithmetic agrees exactly with the rationals (the
per-record combined mean `(a+c+r)/3` of integer scores in the pipeline's
range is never representable as `x + 1/2`, and its float image rounds to the
same integer as the exact rational).  `np.std` is the square root of the
population variance; the variance itself is stored in the `var` field, since
the square root is irrational in general and no claim depends on it. -/

/-- Python 3 `round()` to the nearest integer, ties to the even neighbour. -/
def pyRound (x : ℚ) : ℤ :=
  let f := ⌊x⌋
  let frac := x - f
  if frac < 1 / 2 then f
  else if 1 / 2 < frac then f + 1
  else if f % 2 = 0 then f else f + 1

/-- `np.mean`. -/
def npMean (xs : List ℚ) : ℚ := xs.sum / xs.length

/-- `np.median`: middle element of the sorted list, or the mean of the two
middle elements for an even length. -/
def npMedian (xs : List ℚ) : ℚ :=
  let s := xs.insertionSort (· ≤ ·)
  let n := xs.length
  if n % 2 = 1 then s.getD (n / 2) 0
  else (s.getD (n / 2 - 1) 0 + s.getD (n / 2) 0) / 2

/-- `np.min` (junk value 0 on `[]`, which `calculate_metrics` never reaches). -/
def npMin (xs : List ℚ) : ℚ :=
  match xs with
  | [] => 0
  | h :: t => t.foldl min h

/-- `np.max` (junk value 0 on `[]`, which `calculate_metrics` never reaches). -/
def npMax (xs : List ℚ) : ℚ :=
  match xs with
  | [] => 0
  | h :: t => t.foldl max h

/-- Population variance; `np.std` is its square root. -/
def npVar (xs : List ℚ) : ℚ := npMean (xs.map (fun x => (x - npMean xs) ^ 2))

/-- The five-number summary `metrics.py` stores per axis (with `np.std`
represented by the variance `var = std ^ 2`). -/
structure AxisStats where
  mean : ℚ
  median : ℚ
  min : ℚ
  max : ℚ
  var : ℚ
deriving DecidableEq

def npStats (xs : List ℚ) : AxisStats :=
  ⟨npMean xs, npMedian xs, npMin xs, npMax xs, npVar xs⟩

/-- The dictionary returned by `calculate_metrics`; `metrics` and
`distribution` are insertion-ordered string-keyed maps. -/
structure MetricsResult where
  count : Nat
  metrics : List (String × AxisStats)
  distribution : List (String × List (Nat × Nat))
deriving DecidableEq

/-- The skip marker tested by the aggregator (metrics.py line 23). -/
def skippedMarker : Str := "Skipped due to timeout".data

/-- The evaluated subset (metrics.py lines 21–26): records whose
justification does not contain the timeout-skip marker. -/
def evaluatedRecords (rs : List ResultEntry) : List ResultEntry :=
  rs.filter (fun r => !(containsSub skippedMarker r.text_response_evaluation.justification))

def accuracy_scores (rs : List ResultEntry) : List ℚ :=
  (evaluatedRecords rs).map (fun r => (r.text_response_evaluation.accuracy : ℚ))

def completeness_scores (rs : List ResultEntry) : List ℚ :=
  (evaluatedRecords rs).map (fun r => (r.text_response_evaluation.completeness : ℚ))

def relevance_scores (rs : List ResultEntry) : List ℚ :=
  (evaluatedRecords rs).map (fun r => (r.text_response_evaluation.relevance : ℚ))

/-- The combined series (metrics.py line 61): the three per-axis series
zipped, each triple averaged. -/
def combined_scores (rs : List ResultEntry) : List ℚ :=
  ((accuracy_scores rs).zip ((completeness_scores rs).zip (relevance_scores rs))).map
    (fun p => (p.1 + p.2.1 + p.2.2) / 3)

/-- One axis histogram (metrics.py lines 80–82): buckets 0..10, bucket `i`
counting the scores that round to `i`. -/
def score_bins (scores : List ℚ) : List (Nat × Nat) :=
  (List.range 11).map (fun i => (i, (scores.filter (fun s => pyRound s = i)).length))

/-- `calculate_metrics` (metrics.py lines 5–90). -/
def calculate_metrics (rs : List ResultEntry) : MetricsResult :=
  if rs.isEmpty then ⟨0, [], []⟩
  else if (accuracy_scores rs).isEmpty then ⟨0, [], []⟩
  else
    ⟨(accuracy_scores rs).length,
     [("accuracy", npStats (accuracy_scores rs)),
      ("completeness", npStats (completeness_scores rs)),
      ("relevance", npStats (relevance_scores rs)),
      ("combined", npStats (combined_scores rs))],
     [("accuracy", score_bins (accuracy_scores rs)),
      ("completeness", score_bins (completeness_scores rs)),
      ("relevance", score_bins (relevance_scores rs)),
      ("combined", score_bins (combined_scores rs))]⟩

/-! ## Claim theorems -/

/-- **C3** — For every entry whose generated text equals the recognized
timeout sentinel (and which survives the question/expected-answer presence
check), the judging stage makes no judge-model call (`judge_calls … = []`,
and the result does not depend on the judge oracle at all) and produces an
evaluation with accuracy = completeness = relevance = 0 and justification
exactly `"Skipped due to timeout error in the response"`. -/
theorem timeout_sentinel_skips_judge (judge : Str → Str → Str → EvaluationScore)
    (e : InputEntry)
    (hq : pyStrip e.question ≠ [])
    (ha : pyStrip e.expectedAnswer ≠ [])
    (ht : textResponseOf e.generatedAnswer = timeoutSentinel) :
    process_json_data judge [e] =
      [⟨pyStrip e.question, pyStrip e.expectedAnswer, timeoutSentinel,
        ⟨0, 0, 0, skipJustification⟩⟩] ∧
    judge_calls judge [e] = [] := by
  have hstep : stepEntry judge e =
      some ([], ⟨pyStrip e.question, pyStrip e.expectedAnswer, timeoutSentinel,
        ⟨0, 0, 0, skipJustification⟩⟩) := by
    simp only [stepEntry, ht]
    rw [if_neg (not_or.mpr ⟨hq, ha⟩), if_pos (by decide)]
  constructor
  · simp [process_json_data, hstep]
  · simp [judge_calls, hstep]

/-- **C3 witness**: a concrete timeout-sentinel entry. -/
theorem timeout_sentinel_skips_judge_witness :
    (pyStrip "Q1".data ≠ [] ∧ pyStrip "A1".data ≠ [] ∧
      textResponseOf (.plain timeoutSentinel) = timeoutSentinel) ∧
    process_json_data (fun _ _ _ => ⟨9, 9, 9, "never".data⟩)
        [⟨"Q1".data, "A1".data, .plain timeoutSentinel⟩] =
      [⟨"Q1".data, "A1".data, timeoutSentinel, ⟨0, 0, 0, skipJustification⟩⟩] ∧
    judge_calls (fun _ _ _ => ⟨9, 9, 9, "never".data⟩)
        [⟨"Q1".data, "A1".data, .plain timeoutSentinel⟩] = [] := by
  refine ⟨⟨by decide, by decide, by decide⟩, ?_⟩
  have h := timeout_sentinel_skips_judge (fun _ _ _ => ⟨9, 9, 9, "never".data⟩)
    ⟨"Q1".data, "A1".data, .plain timeoutSentinel⟩ (by decide) (by decide) (by decide)
  exact ⟨by rw [h.1]; decide, h.2⟩

/-- The record built for an entry kept by `process_json_data` (the body of
the loop after the skip check, json_validator.py lines 36–79). -/
def entryRecord (judge : Str → Str → Str → EvaluationScore) (e : InputEntry) : ResultEntry :=
  let question := pyStrip e.question
  let expected_answer := pyStrip e.expectedAnswer
  let text_response := textResponseOf e.generatedAnswer
  if containsSub timeoutMarker text_response then
    ⟨question, expected_answer, text_response, ⟨0, 0, 0, skipJustification⟩⟩
  else
    ⟨question, expected_answer, text_response,
      judge question text_response expected_answer⟩

/-- **C1 (amended)** — The judging stage keeps exactly the entries whose
*question and expected answer* are both non-empty after stripping: the output
is the kept entries, in input order, one record per kept entry.  (The claim's
"only items missing a question are dropped" fails: a missing expected answer
also drops the item — see the counterexample.) -/
theorem judging_output_is_filter_map (judge : Str → Str → Str → EvaluationScore)
    (entries : List InputEntry) :
    process_json_data judge entries =
      (entries.filter (fun e =>
        !(pyStrip e.question).isEmpty && !(pyStrip e.expectedAnswer).isEmpty)).map
        (entryRecord judge) := by
  induction entries with
  | nil => rfl
  | cons e es ih =>
    rw [process_json_data, List.filterMap_cons]
    by_cases hq : pyStrip e.question = []
    · have hs : stepEntry judge e = none := by
        simp only [stepEntry]
        rw [if_pos (Or.inl hq)]
      rw [hs]
      rw [List.filter_cons_of_neg (by simp [hq])]
      exact ih
    · by_cases ha : pyStrip e.expectedAnswer = []
      · have hs : stepEntry judge e = none := by
          simp only [stepEntry]
          rw [if_pos (Or.inr ha)]
        rw [hs]
        rw [List.filter_cons_of_neg (by simp [ha])]
        exact ih
      · have hs : (stepEntry judge e).map Prod.snd = some (entryRecord judge e) := by
          simp only [stepEntry, entryRecord]
          rw [if_neg (not_or.mpr ⟨hq, ha⟩)]
          by_cases htm : containsSub timeoutMarker (textResponseOf e.generatedAnswer) = true
          · rw [if_pos htm, if_pos htm]
            rfl
          · rw [if_neg htm, if_neg htm]
            rfl
        rw [hs]
        rw [List.filter_cons_of_pos (by simp [hq, ha])]
        rw [List.map_cons]
        exact congrArg _ ih

/-- **C1 counterexample** — an entry with a non-empty question but an empty
expected answer yields *no* record at all (the claim says every item with a
non-empty question yields exactly one). -/
theorem question_without_expected_dropped :
    pyStrip "Q".data ≠ [] ∧
    process_json_data (fun _ _ _ => ⟨0, 0, 0, []⟩)
      [⟨"Q".data, [], .plain "ans".data⟩] = [] := by
  exact ⟨by decide, by decide⟩

/-- **C2 (amended)** — When a dispatched generation task raises, the
coordination layer catches the exception and the batch continues (every other
item is still processed, the output length equals the input length), and the
failed item's answer records `"Error: " + message` as `raw_response` but the
*empty string* as `text_response` (not the error text in both fields, unlike
the recognized-failure pairs produced inside the invoker). -/
theorem generation_exception_collected (invoke : Nat → Str → Except Str (Str × Str))
    (items : List GenInputItem) (i : Nat) (it : GenInputItem) (q m : Str)
    (h1 : items[i]? = some it)
    (h2 : it.question = some q)
    (h3 : invoke i q = .error m) :
    (process_input_json invoke items)[i]? =
      some { it with generatedAnswer := some ⟨"Error: ".data ++ m, []⟩ } ∧
    (process_input_json invoke items).length = items.length := by
  constructor
  · simp only [process_input_json, List.getElem?_map, List.getElem?_enum, h1,
      Option.map_some', h2, h3, collectGenerated]
  · rw [process_input_json, List.length_map, List.enum_length]

/-- **C2 witness**: one item, an invoker that raises `"boom"`. -/
theorem generation_exception_collected_witness :
    (([⟨some "Q".data, none⟩] : List GenInputItem)[0]? = some ⟨some "Q".data, none⟩ ∧
      (⟨some "Q".data, none⟩ : GenInputItem).question = some "Q".data ∧
      (fun (_ : Nat) (_ : Str) => (Except.error "boom".data : Except Str (Str × Str))) 0 "Q".data
        = .error "boom".data) ∧
    (process_input_json (fun _ _ => .error "boom".data) [⟨some "Q".data, none⟩])[0]? =
      some ⟨some "Q".data, some ⟨"Error: boom".data, []⟩⟩ ∧
    (process_input_json (fun _ _ => .error "boom".data) [⟨some "Q".data, none⟩]).length = 1 := by
  refine ⟨⟨by decide, by decide, rfl⟩, ?_⟩
  have h := generation_exception_collected (fun _ _ => .error "boom".data)
    [⟨some "Q".data, none⟩] 0 ⟨some "Q".data, none⟩ "Q".data "boom".data
    (by decide) (by decide) rfl
  exact ⟨h.1, h.2⟩

/-- **C2 counterexample** — the claim says the failed item's answer records
the error text in *both* fields; in the code the exception handler writes the
error text only into `raw_response` and the empty string into
`text_response`. -/
theorem generation_exception_text_response_empty :
    process_input_json (fun _ _ => .error "boom".data) [⟨some "Q".data, none⟩] =
      [⟨some "Q".data, some ⟨"Error: boom".data, []⟩⟩] ∧
    (collectGenerated (Except.error "boom".data)).text_response ≠
      (collectGenerated (Except.error "boom".data)).raw_response := by
  exact ⟨by decide, by decide⟩

/-- **C8** — `calculate_metrics` on an empty record list, or on a list whose
records all carry the timeout-skip marker in their justification (empty
evaluated subset), returns count 0 with empty metrics and distribution maps.
(The function is total, so no division error can occur.) -/
theorem calculate_metrics_degenerate (rs : List ResultEntry)
    (h : rs = [] ∨ ∀ r ∈ rs,
      containsSub skippedMarker r.text_response_evaluation.justification = true) :
    calculate_metrics rs = ⟨0, [], []⟩ := by
  rcases h with h | h
  · subst h
    rfl
  · have hev : evaluatedRecords rs = [] := by
      rw [evaluatedRecords, List.filter_eq_nil_iff]
      intro r hr
      simp [h r hr]
    have hacc : accuracy_scores rs = [] := by
      rw [accuracy_scores, hev]
      rfl
    by_cases hrs : rs.isEmpty = true
    · rw [calculate_metrics, if_pos hrs]
    · rw [calculate_metrics, if_neg hrs, if_pos (by rw [hacc]; rfl)]

/-- **C8 witness**: a singleton list holding one timeout-skipped record. -/
theorem calculate_metrics_degenerate_witness :
    (∀ r ∈ [(⟨"q".data, "a".data, timeoutSentinel,
        ⟨0, 0, 0, skipJustification⟩⟩ : ResultEntry)],
      containsSub skippedMarker r.text_response_evaluation.justification = true) ∧
    calculate_metrics [⟨"q".data, "a".data, timeoutSentinel,
        ⟨0, 0, 0, skipJustification⟩⟩] = ⟨0, [], []⟩ := by
  refine ⟨by decide, ?_⟩
  exact calculate_metrics_degenerate _ (Or.inr (by decide))

/-- Concrete judge-endpoint oracle for the C4 witness: the first attempt
raises an inference-profile validation error, the second succeeds. -/
def judgeOracle₀ : Nat → Str → AttemptResult := fun i _ =>
  if i = 0 then .err "ValidationException: use an inference profile".data
  else .ok "Accuracy score: 7\nCompleteness score: 6\nRelevance score: 8\nJustification: fine".data

/-- **C4** — If attempt 1 (on the default model) fails with an error whose
message carries `"ValidationException"` and `"inference profile"`, and
attempt 2 (on the fallback model) succeeds with a non-empty text, then
`call_bedrock_model` with `max_retries = 3` makes exactly 2 invocation
attempts, the second on the fixed fallback model id, performs no backoff
sleep (the fallback re-attempt is immediate), and returns the parsed score of
the attempt-2 text.  (The failed attempt consumed one unit of the retry
budget: the recursive call runs with gas 2 of 3.) -/
theorem inference_profile_fallback_scenario (attempt : Nat → Str → AttemptResult)
    (m t : Str)
    (h1 : attempt 0 BEDROCK_DEFAULT_MODEL = .err m)
    (h2 : containsSub "ValidationException".data m = true)
    (h3 : containsSub "inference profile".data m = true)
    (h4 : attempt 1 BEDROCK_FALLBACK_MODEL = .ok t)
    (h5 : t ≠ []) :
    call_bedrock_model attempt 3 =
      ⟨parse_evaluation t, [BEDROCK_DEFAULT_MODEL, BEDROCK_FALLBACK_MODEL], 0⟩ := by
  have hloop : callLoop attempt BEDROCK_FALLBACK_MODEL 3 0 BEDROCK_DEFAULT_MODEL =
      ([BEDROCK_DEFAULT_MODEL, BEDROCK_FALLBACK_MODEL], 0, .success t) := by
    simp only [callLoop, h1, h4, h2, h3, Bool.and_self, eq_self_iff_true, if_true]
  simp only [call_bedrock_model, hloop]
  rw [if_neg h5]

/-- **C4 witness**: a concrete two-attempt oracle. -/
theorem inference_profile_fallback_scenario_witness :
    (judgeOracle₀ 0 BEDROCK_DEFAULT_MODEL =
        .err "ValidationException: use an inference profile".data ∧
      containsSub "ValidationException".data
        "ValidationException: use an inference profile".data = true ∧
      containsSub "inference profile".data
        "ValidationException: use an inference profile".data = true ∧
      judgeOracle₀ 1 BEDROCK_FALLBACK_MODEL =
        .ok "Accuracy score: 7\nCompleteness score: 6\nRelevance score: 8\nJustification: fine".data ∧
      ("Accuracy score: 7\nCompleteness score: 6\nRelevance score: 8\nJustification: fine".data : Str) ≠ []) ∧
    call_bedrock_model judgeOracle₀ 3 =
      ⟨⟨7, 6, 8, "fine".data⟩, [BEDROCK_DEFAULT_MODEL, BEDROCK_FALLBACK_MODEL], 0⟩ := by
  refine ⟨⟨rfl, by decide, by decide, rfl, by decide⟩, ?_⟩
  have h := inference_profile_fallback_scenario judgeOracle₀
    "ValidationException: use an inference profile".data
    "Accuracy score: 7\nCompleteness score: 6\nRelevance score: 8\nJustification: fine".data
    rfl (by decide) (by decide) rfl (by decide)
  rw [h]
  decide

/-- The score a line would yield in `extract_score`: the text between the
first and second colon, stripped and read as an integer; `none` when the
line has no second field (IndexError) or the conversion fails (ValueError). -/
def lineScore (l : Str) : Option Int :=
  ((splitOnChar ':' l).get? 1).bind (fun f => parseIntOpt (pyStrip f))

theorem extract_score_eq_zero {lines : List Str} {pfx : Str}
    (h : lines.find? (pyStartswith pfx) = none ∨
      ∃ l, lines.find? (pyStartswith pfx) = some l ∧ lineScore l = none) :
    extract_score lines pfx = 0 := by
  rcases h with h | ⟨l, hl, hs⟩
  · rw [extract_score, h]
    rfl
  · rw [lineScore] at hs
    rw [extract_score, hl]
    simp only [Option.getD_some]
    by_cases he : l = []
    · rw [if_pos he]
    · rw [if_neg he]
      rcases hg : (splitOnChar ':' l).get? 1 with _ | f
      · rfl
      · show (parseIntOpt (pyStrip f)).getD 0 = 0
        rw [hg] at hs
        have hs' : parseIntOpt (pyStrip f) = none := hs
        rw [hs']
        rfl

/-- **C6** — Score parsing is a total function (it can never raise), and for
each of the three axes: if no line of the input starts with the axis label,
or the first such line fails the integer extraction (no second `:`-field or
a failed `int(...)` conversion), then that axis of the parsed result is 0. -/
theorem malformed_scores_default_zero (text : Str) :
    (((splitOnChar '\n' text).find? (pyStartswith "Accuracy score".data) = none ∨
      ∃ l, (splitOnChar '\n' text).find? (pyStartswith "Accuracy score".data) = some l ∧
        lineScore l = none) →
      (parse_evaluation text).accuracy = 0) ∧
    (((splitOnChar '\n' text).find? (pyStartswith "Completeness score".data) = none ∨
      ∃ l, (splitOnChar '\n' text).find? (pyStartswith "Completeness score".data) = some l ∧
        lineScore l = none) →
      (parse_evaluation text).completeness = 0) ∧
    (((splitOnChar '\n' text).find? (pyStartswith "Relevance score".data) = none ∨
      ∃ l, (splitOnChar '\n' text).find? (pyStartswith "Relevance score".data) = some l ∧
        lineScore l = none) →
      (parse_evaluation text).relevance = 0) := by
  refine ⟨fun h => ?_, fun h => ?_, fun h => ?_⟩
  · show extract_score (splitOnChar '\n' text) "Accuracy score".data = 0
    exact extract_score_eq_zero h
  · show extract_score (splitOnChar '\n' text) "Completeness score".data = 0
    exact extract_score_eq_zero h
  · show extract_score (splitOnChar '\n' text) "Relevance score".data = 0
    exact extract_score_eq_zero h

/-- **C6 witness**: accuracy line with a non-integer value, no completeness
line, relevance line with no second field. -/
theorem malformed_scores_default_zero_witness :
    ((∃ l, (splitOnChar '\n' "Accuracy score: high\nRelevance score\nJustification: x".data).find?
        (pyStartswith "Accuracy score".data) = some l ∧ lineScore l = none) ∧
      (splitOnChar '\n' "Accuracy score: high\nRelevance score\nJustification: x".data).find?
        (pyStartswith "Completeness score".data) = none ∧
      (∃ l, (splitOnChar '\n' "Accuracy score: high\nRelevance score\nJustification: x".data).find?
        (pyStartswith "Relevance score".data) = some l ∧ lineScore l = none)) ∧
    (parse_evaluation "Accuracy score: high\nRelevance score\nJustification: x".data).accuracy = 0 ∧
    (parse_evaluation "Accuracy score: high\nRelevance score\nJustification: x".data).completeness = 0 ∧
    (parse_evaluation "Accuracy score: high\nRelevance score\nJustification: x".data).relevance = 0 := by
  have hA : ∃ l, (splitOnChar '\n' "Accuracy score: high\nRelevance score\nJustification: x".data).find?
      (pyStartswith "Accuracy score".data) = some l ∧ lineScore l = none :=
    ⟨"Accuracy score: high".data, by decide, by decide⟩
  have hC : (splitOnChar '\n' "Accuracy score: high\nRelevance score\nJustification: x".data).find?
      (pyStartswith "Completeness score".data) = none := by decide
  have hR : ∃ l, (splitOnChar '\n' "Accuracy score: high\nRelevance score\nJustification: x".data).find?
      (pyStartswith "Relevance score".data) = some l ∧ lineScore l = none :=
    ⟨"Relevance score".data, by decide, by decide⟩
  have h := malformed_scores_default_zero "Accuracy score: high\nRelevance score\nJustification: x".data
  exact ⟨⟨hA, hC, hR⟩, h.1 (Or.inr hA), h.2.1 (Or.inl hC), h.2.2 (Or.inr hR)⟩

theorem extract_score_of_found {lines : List Str} {pfx : Str} {n : Nat}
    (hc : ':' ∉ pfx)
    (h : lines.find? (pyStartswith pfx) = some (pfx ++ ": ".data ++ natChars n)) :
    extract_score lines pfx = (n : Int) := by
  rw [extract_score, h]
  simp only [Option.getD_some]
  have hne : pfx ++ ": ".data ++ natChars n ≠ [] := by
    simp
  rw [if_neg hne]
  have hassoc : pfx ++ ": ".data ++ natChars n = pfx ++ (':' :: (' ' :: natChars n)) := by
    rw [List.append_assoc]
    rfl
  have hnc : ':' ∉ (' ' :: natChars n) := by
    intro hm
    rcases List.mem_cons.mp hm with hm | hm
    · exact absurd hm (by decide)
    · exact digit_ne_colon (natChars_mem_digit n _ hm) rfl
  have hsplit : splitOnChar ':' (pfx ++ ": ".data ++ natChars n) = [pfx, ' ' :: natChars n] := by
    rw [hassoc, splitOnChar_append hc, splitOnChar_not_mem hnc]
  rw [hsplit]
  show (parseIntOpt (pyStrip (' ' :: natChars n))).getD 0 = (n : Int)
  rw [pyStrip_cons_space,
    pyStrip_no_space (fun c hcm => digit_not_space (natChars_mem_digit n c hcm)),
    parseIntOpt_natChars]
  rfl

/-- **C5** — A judge response whose first `"Accuracy score"`-,
`"Completeness score"`- and `"Relevance score"`-prefixed lines are exactly
`"<Label> score: N"` and whose `"Justification"`-prefixed lines are exactly
one line `"Justification: <j>"` (with `<j>` already stripped and not itself
containing the literal `"Justification:"`) parses to exactly the three
integers and the justification text with the prefix stripped. -/
theorem wellformed_judge_response_parses_exactly (text : Str) (a c r : Nat) (j : Str)
    (ha : (splitOnChar '\n' text).find? (pyStartswith "Accuracy score".data) =
      some ("Accuracy score: ".data ++ natChars a))
    (hc : (splitOnChar '\n' text).find? (pyStartswith "Completeness score".data) =
      some ("Completeness score: ".data ++ natChars c))
    (hr : (splitOnChar '\n' text).find? (pyStartswith "Relevance score".data) =
      some ("Relevance score: ".data ++ natChars r))
    (hj : (splitOnChar '\n' text).filter (pyStartswith "Justification".data) =
      ["Justification: ".data ++ j])
    (hn : containsSub "Justification:".data j = false)
    (hs : pyStrip j = j) :
    parse_evaluation text = ⟨(a : Int), (c : Int), (r : Int), j⟩ := by
  have hacc : extract_score (splitOnChar '\n' text) "Accuracy score".data = (a : Int) :=
    extract_score_of_found (by decide) ha
  have hcom : extract_score (splitOnChar '\n' text) "Completeness score".data = (c : Int) :=
    extract_score_of_found (by decide) hc
  have hrel : extract_score (splitOnChar '\n' text) "Relevance score".data = (r : Int) :=
    extract_score_of_found (by decide) hr
  simp only [parse_evaluation]
  rw [hj, if_neg (by simp), intercalate_singleton]
  have hline : ("Justification: ".data ++ j : Str) = "Justification:".data ++ (' ' :: j) := by
    rw [show ("Justification: ".data : Str) = "Justification:".data ++ [' '] from rfl,
      List.append_assoc]
    rfl
  rw [hline, pyReplace_head (by decide), List.nil_append]
  have hno : containsSub "Justification:".data (' ' :: j) = false := by
    rw [containsSub, hn]
    rfl
  rw [pyReplace_no_occur hno, pyStrip_cons_space, hs, hacc, hcom, hrel]

/-- **C5 witness**: the §8 scenario response. -/
theorem wellformed_judge_response_parses_exactly_witness :
    ((splitOnChar '\n' "Accuracy score: 9\nCompleteness score: 8\nRelevance score: 10\nJustification: close match".data).find?
        (pyStartswith "Accuracy score".data) =
          some ("Accuracy score: ".data ++ natChars 9) ∧
      (splitOnChar '\n' "Accuracy score: 9\nCompleteness score: 8\nRelevance score: 10\nJustification: close match".data).find?
        (pyStartswith "Completeness score".data) =
          some ("Completeness score: ".data ++ natChars 8) ∧
      (splitOnChar '\n' "Accuracy score: 9\nCompleteness score: 8\nRelevance score: 10\nJustification: close match".data).find?
        (pyStartswith "Relevance score".data) =
          some ("Relevance score: ".data ++ natChars 10) ∧
      (splitOnChar '\n' "Accuracy score: 9\nCompleteness score: 8\nRelevance score: 10\nJustification: close match".data).filter
        (pyStartswith "Justification".data) =
          ["Justification: ".data ++ "close match".data] ∧
      containsSub "Justification:".data "close match".data = false ∧
      pyStrip "close match".data = "close match".data) ∧
    parse_evaluation "Accuracy score: 9\nCompleteness score: 8\nRelevance score: 10\nJustification: close match".data =
      ⟨9, 8, 10, "close match".data⟩ := by
  refine ⟨⟨by decide, by decide, by decide, by decide, by decide, by decide⟩, ?_⟩
  have h := wellformed_judge_response_parses_exactly
    "Accuracy score: 9\nCompleteness score: 8\nRelevance score: 10\nJustification: close match".data
    9 8 10 "close match".data
    (by decide) (by decide) (by decide) (by decide) (by decide) (by decide)
  exact h

/-- **C10** — The justification cleanup deletes *every* occurrence of the
literal `"Justification:"` from the joined justification lines, not only the
leading prefix: a single justification line `"Justification: <j₁>Justification:<j₂>"`
(with `<j₁>`, `<j₂>` free of `'J'` and `<j₁> ++ <j₂>` already stripped)
yields justification `<j₁> ++ <j₂>` — the interior sentinel is deleted too. -/
theorem interior_justification_prefix_deleted (text : Str) (j₁ j₂ : Str)
    (hj : (splitOnChar '\n' text).filter (pyStartswith "Justification".data) =
      ["Justification: ".data ++ j₁ ++ "Justification:".data ++ j₂])
    (h1 : 'J' ∉ j₁)
    (h2 : 'J' ∉ j₂)
    (hs : pyStrip (j₁ ++ j₂) = j₁ ++ j₂) :
    (parse_evaluation text).justification = j₁ ++ j₂ := by
  simp only [parse_evaluation]
  rw [hj, if_neg (by simp), intercalate_singleton]
  have hline : ("Justification: ".data ++ j₁ ++ "Justification:".data ++ j₂ : Str) =
      "Justification:".data ++ ((' ' :: j₁) ++ ("Justification:".data ++ j₂)) := by
    rw [show ("Justification: ".data : Str) = "Justification:".data ++ [' '] from rfl]
    simp [List.append_assoc]
  rw [hline, pyReplace_head (by decide), List.nil_append]
  have hJ1 : 'J' ∉ (' ' :: j₁) := by
    intro hm
    rcases List.mem_cons.mp hm with hm | hm
    · exact absurd hm (by decide)
    · exact h1 hm
  rw [pyReplace_skip hJ1, pyReplace_head (by decide), List.nil_append,
    pyReplace_no_occur (show containsSub "Justification:".data j₂ = false from
      containsSub_eq_false h2)]
  rw [show ((' ' :: j₁) ++ j₂ : Str) = ' ' :: (j₁ ++ j₂) from rfl,
    pyStrip_cons_space, hs]

/-- **C10 witness**: `"Justification: see Justification: above"`. -/
theorem interior_justification_prefix_deleted_witness :
    ((splitOnChar '\n' "Justification: see Justification: above".data).filter
        (pyStartswith "Justification".data) =
      ["Justification: ".data ++ "see ".data ++ "Justification:".data ++ " above".data] ∧
      'J' ∉ "see ".data ∧ 'J' ∉ " above".data ∧
      pyStrip ("see ".data ++ " above".data) = "see ".data ++ " above".data) ∧
    (parse_evaluation "Justification: see Justification: above".data).justification =
      "see ".data ++ " above".data := by
  refine ⟨⟨by decide, by decide, by decide, by decide⟩, ?_⟩
  exact interior_justification_prefix_deleted
    "Justification: see Justification: above".data "see ".data " above".data
    (by decide) (by decide) (by decide) (by decide)

theorem score_bins_keys (s : List ℚ) : (score_bins s).map Prod.fst = List.range 11 := by
  rw [score_bins, List.map_map]
  have hcomp : (Prod.fst ∘ fun i : Nat =>
      (i, (List.filter (fun q => decide (pyRound q = (i : Int))) s).length)) =
        fun i : Nat => i := by
    funext i
    rfl
  rw [hcomp, List.map_id']

theorem score_bins_lookup (s : List ℚ) (i : Nat) (hi : i ≤ 10) :
    (score_bins s).lookup i = some (s.countP (fun q => pyRound q = (i : Int))) := by
  rw [List.countP_eq_length_filter]
  interval_cases i <;> rfl

theorem calculate_metrics_distribution (rs : List ResultEntry)
    (h : evaluatedRecords rs ≠ []) :
    (calculate_metrics rs).distribution =
      [("accuracy", score_bins (accuracy_scores rs)),
       ("completeness", score_bins (completeness_scores rs)),
       ("relevance", score_bins (relevance_scores rs)),
       ("combined", score_bins (combined_scores rs))] := by
  have hrs : ¬(rs.isEmpty = true) := by
    rcases rs with _ | ⟨x, xs⟩
    · exact absurd rfl h
    · simp
  have hacc : ¬((accuracy_scores rs).isEmpty = true) := by
    rw [accuracy_scores]
    rcases he : evaluatedRecords rs with _ | ⟨y, ys⟩
    · exact absurd he h
    · simp
  rw [calculate_metrics, if_neg hrs, if_neg hacc]

/-- **C7** — Over a non-empty evaluated subset: the combined series holds, for
each evaluated record in order, the arithmetic mean `(a + c + r) / 3` of its
three axis scores; every one of the four per-axis distribution maps has
exactly the integer keys 0..10; and the value at key `i` of each map counts
the records of that axis series whose rounded score equals `i`. -/
theorem combined_series_and_distributions (rs : List ResultEntry)
    (h : evaluatedRecords rs ≠ []) :
    combined_scores rs = (evaluatedRecords rs).map (fun e =>
      ((e.text_response_evaluation.accuracy : ℚ) + (e.text_response_evaluation.completeness : ℚ) +
        (e.text_response_evaluation.relevance : ℚ)) / 3) ∧
    (∀ q bs, (q, bs) ∈ (calculate_metrics rs).distribution →
      bs.map Prod.fst = List.range 11) ∧
    (∀ i : Nat, i ≤ 10 →
      ((calculate_metrics rs).distribution.lookup "accuracy").bind (List.lookup i) =
        some ((accuracy_scores rs).countP (fun s => pyRound s = (i : Int))) ∧
      ((calculate_metrics rs).distribution.lookup "completeness").bind (List.lookup i) =
        some ((completeness_scores rs).countP (fun s => pyRound s = (i : Int))) ∧
      ((calculate_metrics rs).distribution.lookup "relevance").bind (List.lookup i) =
        some ((relevance_scores rs).countP (fun s => pyRound s = (i : Int))) ∧
      ((calculate_metrics rs).distribution.lookup "combined").bind (List.lookup i) =
        some ((combined_scores rs).countP (fun s => pyRound s = (i : Int)))) := by
  refine ⟨?_, ?_, ?_⟩
  · rw [combined_scores, accuracy_scores, completeness_scores, relevance_scores,
      List.zip_map', List.zip_map', List.map_map]
    rfl
  · rw [calculate_metrics_distribution rs h]
    intro q bs hm
    fin_cases hm <;> exact score_bins_keys _
  · intro i hi
    rw [calculate_metrics_distribution rs h]
    exact ⟨score_bins_lookup _ i hi, score_bins_lookup _ i hi,
      score_bins_lookup _ i hi, score_bins_lookup _ i hi⟩

/-- **C7 witness**: one evaluated (non-skipped) record. -/
theorem combined_series_and_distributions_witness :
    evaluatedRecords [(⟨"q".data, "a".data, "g".data,
        ⟨9, 8, 10, "ok".data⟩⟩ : ResultEntry)] ≠ [] ∧
    (combined_scores [(⟨"q".data, "a".data, "g".data, ⟨9, 8, 10, "ok".data⟩⟩ : ResultEntry)] =
      (evaluatedRecords [(⟨"q".data, "a".data, "g".data, ⟨9, 8, 10, "ok".data⟩⟩ : ResultEntry)]).map
        (fun e => ((e.text_response_evaluation.accuracy : ℚ) +
          (e.text_response_evaluation.completeness : ℚ) +
          (e.text_response_evaluation.relevance : ℚ)) / 3) ∧
    (∀ q bs, (q, bs) ∈ (calculate_metrics
        [(⟨"q".data, "a".data, "g".data, ⟨9, 8, 10, "ok".data⟩⟩ : ResultEntry)]).distribution →
      bs.map Prod.fst = List.range 11) ∧
    (∀ i : Nat, i ≤ 10 →
      ((calculate_metrics [(⟨"q".data, "a".data, "g".data, ⟨9, 8, 10, "ok".data⟩⟩ : ResultEntry)]).distribution.lookup
          "accuracy").bind (List.lookup i) =
        some ((accuracy_scores [(⟨"q".data, "a".data, "g".data, ⟨9, 8, 10, "ok".data⟩⟩ : ResultEntry)]).countP
          (fun s => pyRound s = (i : Int))) ∧
      ((calculate_metrics [(⟨"q".data, "a".data, "g".data, ⟨9, 8, 10, "ok".data⟩⟩ : ResultEntry)]).distribution.lookup
          "completeness").bind (List.lookup i) =
        some ((completeness_scores [(⟨"q".data, "a".data, "g".data, ⟨9, 8, 10, "ok".data⟩⟩ : ResultEntry)]).countP
          (fun s => pyRound s = (i : Int))) ∧
      ((calculate_metrics [(⟨"q".data, "a".data, "g".data, ⟨9, 8, 10, "ok".data⟩⟩ : ResultEntry)]).distribution.lookup
          "relevance").bind (List.lookup i) =
        some ((relevance_scores [(⟨"q".data, "a".data, "g".data, ⟨9, 8, 10, "ok".data⟩⟩ : ResultEntry)]).countP
          (fun s => pyRound s = (i : Int))) ∧
      ((calculate_metrics [(⟨"q".data, "a".data, "g".data, ⟨9, 8, 10, "ok".data⟩⟩ : ResultEntry)]).distribution.lookup
          "combined").bind (List.lookup i) =
        some ((combined_scores [(⟨"q".data, "a".data, "g".data, ⟨9, 8, 10, "ok".data⟩⟩ : ResultEntry)]).countP
          (fun s => pyRound s = (i : Int))))) := by
  refine ⟨by decide, ?_⟩
  exact combined_series_and_distributions
    [(⟨"q".data, "a".data, "g".data, ⟨9, 8, 10, "ok".data⟩⟩ : ResultEntry)] (by decide)
